import Mathlib

/-!
Shallow embedding of the hengrui-trading-algorithm core: the strategy
simulation engine (src/strategy/trading_strategy.py) and the parameter-search
layer (src/optimization/optimizer.py, grid_search.py, bayesian_optimizer.py).

Modelling conventions:
* Python floats are modelled as exact rationals (ℚ); dates (pandas Timestamps)
  as integers counting days, so that subtraction of dates gives the source's
  `(a - b).days`.
* The external numeric primitives np.sqrt and float `**` (spec §1 declares the
  numeric library out of scope) are passed in as a `NumericOps` parameter so
  every definition stays executable over ℚ.
* A Python exception raised while evaluating one parameter set is modelled by
  an `Option Metrics` outcome being `none`; wall-clock execution time and the
  pseudo-random draws of numpy are inputs (oracles) to the embedded functions,
  since they are produced by external libraries, not by repository code.
-/

/- Batteries marks the ℚ field operations `@[irreducible]`; restore the
default reducibility so that concrete runs of the embedded (executable)
definitions can be checked by kernel reduction (`decide`). -/
set_option allowUnsafeReducibility true
attribute [semireducible] Rat.add Rat.mul Rat.div Rat.sub Rat.neg Rat.inv
attribute [semireducible] Rat.ofScientific

namespace Hengrui

/-- One market observation: date (day number), price (股价), PE, trailing
drawdown percentage (回撤). Mirrors one row of the simulator's DataFrame. -/
structure Observation where
  date : ℤ
  price : ℚ
  pe : ℚ
  drawdown : ℚ
deriving DecidableEq

/-- `StrategyConfig` from src/strategy/trading_strategy.py lines 8-28,
with the dataclass defaults.  `14812` is the day number of '2010-07-22'
(days since 1970-01-01). -/
structure StrategyConfig where
  drawdown_threshold : ℚ := -0.30
  buy_pe_threshold : ℚ := 65
  sell_pe_threshold : ℚ := 90
  start_date : ℤ := 14812
  buy_amount : ℚ := 10000
  min_shares : ℚ := 0.01
  min_trade_interval_days : ℤ := 30
  sell_ratio : ℚ := 0.5
  max_consecutive_buys : ℕ := 5
deriving DecidableEq

/-- `TradeRecord` from src/strategy/trading_strategy.py lines 31-45. -/
structure TradeRecord where
  date : ℤ
  action : String
  price : ℚ
  pe : ℚ
  drawdown : ℚ
  shares : ℚ
  amount : ℚ
  total_shares : ℚ
  cash_outflow : ℚ
  current_value : ℚ
  cash_inflow : ℚ
  total_profit : ℚ
deriving DecidableEq

/-- The mutable simulation state initialised in `TradingStrategy.__init__`
(lines 66-74): position, cash flows, cooldown dates, buy counters and the
append-only trade list. -/
structure StrategyState where
  total_shares : ℚ
  cash_outflow : ℚ
  cash_inflow : ℚ
  last_buy_date : Option ℤ
  last_sell_date : Option ℤ
  consecutive_buys : ℕ
  total_buy_times : ℕ
  trades : List TradeRecord
deriving DecidableEq

def initStrategyState : StrategyState :=
  { total_shares := 0, cash_outflow := 0, cash_inflow := 0,
    last_buy_date := none, last_sell_date := none,
    consecutive_buys := 0, total_buy_times := 0, trades := [] }

/-- `TradingStrategy.check_buy_condition` (lines 76-102): drawdown below
threshold×100, PE below buy threshold, buy-cooldown elapsed (vacuous without a
prior buy), consecutive-buy cap not reached. -/
def check_buy_condition (cfg : StrategyConfig) (s : StrategyState)
    (row : Observation) : Bool :=
  decide (row.drawdown < cfg.drawdown_threshold * 100) &&
  decide (row.pe < cfg.buy_pe_threshold) &&
  (match s.last_buy_date with
   | none => true
   | some d => decide (cfg.min_trade_interval_days ≤ row.date - d)) &&
  decide (s.consecutive_buys < cfg.max_consecutive_buys)

/-- `TradingStrategy.check_sell_condition` (lines 104-128): requires a
position, PE above sell threshold, sell-cooldown elapsed. -/
def check_sell_condition (cfg : StrategyConfig) (s : StrategyState)
    (row : Observation) : Bool :=
  if s.total_shares ≤ 0 then false
  else
    decide (cfg.sell_pe_threshold < row.pe) &&
    (match s.last_sell_date with
     | none => true
     | some d => decide (cfg.min_trade_interval_days ≤ row.date - d))

/-- `TradingStrategy.execute_buy` (lines 130-162).  When the computed share
count falls below `min_shares` the buy is suppressed: shares and amount are
forced to 0 and the state is not mutated. -/
def execute_buy (cfg : StrategyConfig) (s : StrategyState) (date : ℤ)
    (price pe drawdown : ℚ) : StrategyState × TradeRecord :=
  let shares := cfg.buy_amount / price
  if shares < cfg.min_shares then
    let cv := s.total_shares * price
    (s,
     { date := date, action := "BUY", price := price, pe := pe,
       drawdown := drawdown, shares := 0, amount := 0,
       total_shares := s.total_shares, cash_outflow := s.cash_outflow,
       current_value := cv, cash_inflow := s.cash_inflow,
       total_profit := cv - s.cash_outflow + s.cash_inflow })
  else
    let s2 : StrategyState :=
      { s with total_shares := s.total_shares + shares,
               cash_outflow := s.cash_outflow + cfg.buy_amount,
               last_buy_date := some date,
               consecutive_buys := s.consecutive_buys + 1,
               total_buy_times := s.total_buy_times + 1 }
    let cv := s2.total_shares * price
    (s2,
     { date := date, action := "BUY", price := price, pe := pe,
       drawdown := drawdown, shares := shares, amount := cfg.buy_amount,
       total_shares := s2.total_shares, cash_outflow := s2.cash_outflow,
       current_value := cv, cash_inflow := s2.cash_inflow,
       total_profit := cv - s2.cash_outflow + s2.cash_inflow })

/-- `TradingStrategy.execute_sell` (lines 164-193): sells
`total_shares / max(consecutive_buys, 1)` and resets the consecutive-buy
counter. -/
def execute_sell (cfg : StrategyConfig) (s : StrategyState) (date : ℤ)
    (price pe drawdown : ℚ) : StrategyState × TradeRecord :=
  let divisor : ℕ := max s.consecutive_buys 1
  let shares_to_sell := s.total_shares / (divisor : ℚ)
  let amount := shares_to_sell * price
  let s2 : StrategyState :=
    { s with total_shares := s.total_shares - shares_to_sell,
             cash_inflow := s.cash_inflow + amount,
             last_sell_date := some date,
             consecutive_buys := 0 }
  let cv := s2.total_shares * price
  (s2,
   { date := date, action := "SELL", price := price, pe := pe,
     drawdown := drawdown, shares := -shares_to_sell, amount := amount,
     total_shares := s2.total_shares, cash_outflow := s2.cash_outflow,
     current_value := cv, cash_inflow := s2.cash_inflow,
     total_profit := cv - s2.cash_outflow + s2.cash_inflow })

/-- The buy branch of the loop body of `run_strategy` (lines 208-217): a
record is appended only when the trade actually happened (`trade.shares > 0`);
the state mutation, if any, occurred inside `execute_buy`. -/
def buyBranch (cfg : StrategyConfig) (s : StrategyState)
    (row : Observation) : StrategyState :=
  let p := execute_buy cfg s row.date row.price row.pe row.drawdown
  if 0 < p.2.shares then { p.1 with trades := p.1.trades ++ [p.2] } else p.1

/-- The sell branch of the loop body of `run_strategy` (lines 219-227): the
record is always appended. -/
def sellBranch (cfg : StrategyConfig) (s : StrategyState)
    (row : Observation) : StrategyState :=
  let p := execute_sell cfg s row.date row.price row.pe row.drawdown
  { p.1 with trades := p.1.trades ++ [p.2] }

/-- One iteration of the `run_strategy` loop (lines 207-227): the sell
condition is only evaluated when the buy condition fails (if/elif). -/
def stepStrategy (cfg : StrategyConfig) (s : StrategyState)
    (row : Observation) : StrategyState :=
  if check_buy_condition cfg s row then buyBranch cfg s row
  else if check_sell_condition cfg s row then sellBranch cfg s row
  else s

/-- The body of `run_strategy` (lines 195-251) applied to an already-ordered
row sequence: filter rows from `start_date`, run the per-row loop, then append
the synthetic terminal HOLD record when a position remains (lines 229-249). -/
def run_strategy_pass (cfg : StrategyConfig) (rows : List Observation) :
    StrategyState :=
  let strategy_data := rows.filter (fun o => decide (cfg.start_date ≤ o.date))
  let s := strategy_data.foldl (stepStrategy cfg) initStrategyState
  match strategy_data.getLast? with
  | none => s
  | some lastRow =>
    if 0 < s.total_shares then
      let fv := s.total_shares * lastRow.price
      { s with trades := s.trades ++
        [{ date := lastRow.date, action := "HOLD", price := lastRow.price,
           pe := lastRow.pe, drawdown := lastRow.drawdown, shares := 0,
           amount := 0, total_shares := s.total_shares,
           cash_outflow := s.cash_outflow, current_value := fv,
           cash_inflow := s.cash_inflow,
           total_profit := fv - s.cash_outflow + s.cash_inflow }] }
    else s

/-- Date ordering used by `self.data.sort_values('日期')`. -/
def obsDateLe (a b : Observation) : Prop := a.date ≤ b.date

instance : DecidableRel obsDateLe :=
  fun a b => inferInstanceAs (Decidable (a.date ≤ b.date))

/-- `TradingStrategy.__init__` + `run_strategy`: the constructor (line 64)
sorts the supplied data by date before the run-loop ever sees it. -/
def run_strategy (cfg : StrategyConfig) (data : List Observation) :
    StrategyState :=
  run_strategy_pass cfg (List.insertionSort obsDateLe data)

/-- Modelled from the spec: claim C4's reading of the simulator, in which
`run` "processes the observations exactly in the order in which they are
supplied" with no sorting step.  Compared against `run_strategy`, which
embeds the constructor's actual `sort_values('日期')` call. -/
def run_strategy_nosort (cfg : StrategyConfig) (data : List Observation) :
    StrategyState :=
  run_strategy_pass cfg data

/-! ### Metrics calculator (`ParameterOptimizer.calculate_metrics`) -/

/-- The metrics dictionary produced for each trial
(src/optimization/optimizer.py lines 120-205); fields mirror the dict keys. -/
structure Metrics where
  total_return : ℚ
  annual_return : ℚ
  max_drawdown : ℚ
  sharpe_ratio : ℚ
  profit_factor : ℚ
  total_trades : ℚ
  buy_trades : ℚ
  sell_trades : ℚ
  win_rate : ℚ
deriving DecidableEq

/-- The no-trade zero-vector of metrics (optimizer.py lines 191-203). -/
def zeroMetrics : Metrics :=
  { total_return := 0, annual_return := 0, max_drawdown := 0,
    sharpe_ratio := 0, profit_factor := 0, total_trades := 0,
    buy_trades := 0, sell_trades := 0, win_rate := 0 }

/-- External numeric primitives (np.sqrt and float `**`).  Spec §1 places the
numeric library out of scope, so they are parameters of the calculator. -/
structure NumericOps where
  sqrtQ : ℚ → ℚ
  powQ : ℚ → ℚ → ℚ

/-- pandas `Series.pct_change().dropna()`: period-over-period change. -/
def pctChange (l : List ℚ) : List ℚ :=
  (l.zip l.tail).map (fun p => (p.2 - p.1) / p.1)

def listMean (l : List ℚ) : ℚ := l.sum / (l.length : ℚ)

/-- Sample variance (ddof = 1), the square of pandas `Series.std()`. -/
def sampleVar (l : List ℚ) : ℚ :=
  (l.map (fun x => (x - listMean l) ^ 2)).sum / ((l.length : ℚ) - 1)

/-- The running-peak drawdown loop of `calculate_metrics`
(optimizer.py lines 144-156). -/
def maxDrawdownPct (values : List ℚ) : ℚ :=
  match values with
  | [] => 0
  | v0 :: _ =>
    let g := fun (acc : ℚ × ℚ) (v : ℚ) =>
      let peak := if acc.1 < v then v else acc.1
      let dd := if 0 < peak then (v - peak) / peak else 0
      (peak, min acc.2 dd)
    (values.foldl g (v0, 0)).2 * 100

/-- `ParameterOptimizer.calculate_metrics` (optimizer.py lines 120-205). -/
def calculate_metrics (ops : NumericOps) (trades : List TradeRecord) :
    Metrics :=
  match trades with
  | [] => zeroMetrics
  | t0 :: _ =>
    let tlast := trades.getLast?.getD t0
    let initial_investment := t0.cash_outflow
    let final_value := tlast.total_profit
    let total_return : ℚ :=
      if 0 < initial_investment then (final_value / initial_investment - 1) * 100
      else 0
    let days : ℚ := if 1 < trades.length then ((tlast.date - t0.date : ℤ) : ℚ)
      else 365
    let years := days / 365
    let annual_return : ℚ :=
      if 0 < years then (ops.powQ (1 + total_return / 100) (1 / years) - 1) * 100
      else 0
    let values := trades.map (fun t => t.total_profit)
    let sharpe : ℚ :=
      if 1 < values.length then
        let returns := pctChange values
        if 0 < returns.length ∧ 0 < ops.sqrtQ (sampleVar returns) then
          (listMean returns / ops.sqrtQ (sampleVar returns)) * ops.sqrtQ 252
        else 0
      else 0
    let buy_trades := trades.filter (fun t => t.action == "BUY")
    let sell_trades := trades.filter (fun t => t.action == "SELL")
    let profit_factor : ℚ :=
      if sell_trades.length > 0 then
        let total_profit := (sell_trades.map (fun t => t.amount)).sum
        let total_cost := (buy_trades.map (fun t => t.amount)).sum
        if 0 < total_cost then total_profit / total_cost else 0
      else 0
    let win_rate : ℚ :=
      if sell_trades.length > 0 then
        ((sell_trades.filter (fun t => decide (0 < t.total_profit))).length : ℚ)
          / (sell_trades.length : ℚ) * 100
      else 0
    { total_return := total_return, annual_return := annual_return,
      max_drawdown := maxDrawdownPct values, sharpe_ratio := sharpe,
      profit_factor := profit_factor, total_trades := (trades.length : ℚ),
      buy_trades := (buy_trades.length : ℚ),
      sell_trades := (sell_trades.length : ℚ), win_rate := win_rate }

/-- `ParameterOptimizer.get_objective_value` (optimizer.py lines 207-235). -/
def get_objective_value (objective : String) (m : Metrics) : ℚ :=
  if objective = "total_return" then m.total_return
  else if objective = "sharpe_ratio" then m.sharpe_ratio
  else if objective = "max_drawdown" then -m.max_drawdown
  else if objective = "profit_factor" then m.profit_factor
  else
    m.total_return * 0.3 + m.sharpe_ratio * 10 * 0.3 +
      (-m.max_drawdown) * 0.2 + m.profit_factor * 10 * 0.2

/-! ### Parameter ranges and strategy evaluation -/

/-- `ParameterRange` (optimizer.py lines 20-36). -/
structure ParameterRange where
  name : String
  min_value : ℚ
  max_value : ℚ
  step : Option ℚ := none
  values : Option (List ℚ) := none
deriving DecidableEq

/-- `np.arange(start, stop, step)`: the arithmetic sequence
`start + k·step` for `0 ≤ k < ⌈(stop - start)/step⌉`.  (numpy raises on
`step = 0`; that dead case is mapped to the empty list.) -/
def arange (start stop step : ℚ) : List ℚ :=
  if step = 0 then []
  else (List.range (Int.toNat ⌈(stop - start) / step⌉)).map
    (fun k : ℕ => start + (k : ℚ) * step)

/-- `ParameterRange.get_values` (optimizer.py lines 29-36): verbatim `values`
if given, else `np.arange(min, max + step, step)` if `step` is given, else the
two endpoints. -/
def ParameterRange.get_values (r : ParameterRange) : List ℚ :=
  match r.values with
  | some vs => vs
  | none =>
    match r.step with
    | some s => arange r.min_value (r.max_value + s) s
    | none => [r.min_value, r.max_value]

/-- Trial parameter dictionaries, as insertion-ordered key/value lists. -/
abbrev Params := List (String × ℚ)

/-- Python `dict.get(key, default)` on a parameter dictionary. -/
def lookupParam (params : Params) (key : String) (dflt : ℚ) : ℚ :=
  (params.lookup key).getD dflt

/-- The `StrategyConfig(...)` construction inside
`ParameterOptimizer.evaluate_strategy` (optimizer.py lines 104-109): only the
three threshold keys are read (with the `.get` defaults 55, 75, -0.25); every
other field keeps its dataclass default. -/
def configFromParams (params : Params) : StrategyConfig :=
  { buy_pe_threshold := lookupParam params "buy_pe_threshold" 55,
    sell_pe_threshold := lookupParam params "sell_pe_threshold" 75,
    drawdown_threshold := lookupParam params "drawdown_threshold" (-0.25) }

/-- `ParameterOptimizer.evaluate_strategy` (optimizer.py lines 94-118): build
the config from the three recognised keys, run the strategy on the
optimizer's data, reduce the trade list to metrics. -/
def evaluate_strategy (ops : NumericOps) (data : List Observation)
    (params : Params) : Metrics :=
  calculate_metrics ops (run_strategy (configFromParams params) data).trades

/-! ### Search coordinator (trial bookkeeping) -/

/-- `OptimizationConfig` (optimizer.py lines 39-49).  `n_jobs` and
`random_seed` are carried for fidelity; the sampling they control is an
oracle input of the embedded search functions. -/
structure OptimizationConfig where
  objective : String := "sharpe_ratio"
  n_trials : ℕ := 100
  n_jobs : ℕ := 1
  random_seed : ℕ := 42
  early_stopping : Bool := true
  early_stopping_rounds : ℕ := 20
deriving DecidableEq

/-- `OptimizationTrial` (optimizer.py lines 52-69). -/
structure OptimizationTrial where
  trial_id : ℕ
  parameters : Params
  metrics : Metrics
  execution_time : ℚ
deriving DecidableEq

def defaultTrial : OptimizationTrial :=
  { trial_id := 0, parameters := [], metrics := zeroMetrics,
    execution_time := 0 }

/-- The outcome of dispatching one parameter set: `result = none` models an
exception raised during `evaluate_strategy`; `elapsed` is the measured wall
clock, an external input. -/
structure EvalOutcome where
  params : Params
  result : Option Metrics
  elapsed : ℚ
deriving DecidableEq

/-- The coordinator state shared by all searches: the append-only trial list
and the best-trial reference (optimizer.py lines 85-86). -/
structure SearchState where
  trials : List OptimizationTrial
  best_trial : Option OptimizationTrial
deriving DecidableEq

def initSearchState : SearchState := { trials := [], best_trial := none }

/-- The best-trial update shared by both searches: first trial always becomes
best, thereafter strict improvement only
(grid_search.py lines 115-117, bayesian_optimizer.py lines 96-97). -/
def updateBest (obj : Metrics → ℚ) (best : Option OptimizationTrial)
    (t : OptimizationTrial) : OptimizationTrial :=
  match best with
  | none => t
  | some b => if obj b.metrics < obj t.metrics then t else b

/-- One comparison step of Python's `max(..., key=obj)`: the current element
is kept on ties, so the scan returns the first maximal element. -/
def pyMaxStep (obj : Metrics → ℚ) (c x : OptimizationTrial) :
    OptimizationTrial :=
  if obj c.metrics < obj x.metrics then x else c

/-- Python `max(l, key=obj)` (None on the empty list): the first element
attaining the maximal objective. -/
def pyMaxBy (obj : Metrics → ℚ) : List OptimizationTrial →
    Option OptimizationTrial
  | [] => none
  | t :: ts => some (ts.foldl (pyMaxStep obj) t)

/-- Python `trials[-n:]`, including the `n = 0` corner in which `trials[-0:]`
is the whole list. -/
def lastWindow (n : ℕ) (l : List OptimizationTrial) : List OptimizationTrial :=
  if n = 0 then l else l.drop (l.length - n)

/-! ### Grid search (src/optimization/grid_search.py) -/

/-- The Cartesian product built by `itertools.product(*values)` (rightmost
factor varies fastest), as lists of chosen values. -/
def cartProd : List (List ℚ) → List (List ℚ)
  | [] => [[]]
  | l :: ls => l.flatMap (fun v => (cartProd ls).map (fun combo => v :: combo))

/-- `GridSearchOptimizer._create_parameter_grid` (grid_search.py lines
32-50): the full Cartesian product of all ranges' `get_values()`, keyed by
parameter name in dictionary (insertion) order. -/
def create_parameter_grid (ranges : List (String × ParameterRange)) :
    List Params :=
  let keys := ranges.map (fun p => p.1)
  let values := ranges.map (fun p => p.2.get_values)
  (cartProd values).map (fun combo => keys.zip combo)

/-- The trial-selection step of `GridSearchOptimizer.optimize` (grid_search.py
lines 95-105): evaluate the whole grid when it fits the trial budget,
otherwise evaluate the combinations at `sampleIdx` — the indices that
`np.random.choice(len(grid), n_trials, replace=False)` deterministically
produces from `random_seed`; numpy's contract (distinct in-range indices) is
assumed as hypotheses where needed. -/
def selectedParams (cfg : OptimizationConfig)
    (ranges : List (String × ParameterRange)) (sampleIdx : List ℕ) :
    List Params :=
  let grid := create_parameter_grid ranges
  let n_trials := min cfg.n_trials grid.length
  if grid.length ≤ n_trials then grid
  else sampleIdx.map (fun i => grid.getD i [])

/-- `GridSearchOptimizer._evaluate_single_combination` (grid_search.py lines
52-81): the try/except around `evaluate_strategy`; an exception
(`out.result = none`) yields the sentinel metrics record of lines 60-70. -/
def sentinelMetrics : Metrics :=
  { total_return := -100, annual_return := -100, max_drawdown := -100,
    sharpe_ratio := -10, profit_factor := 0, total_trades := 0,
    buy_trades := 0, sell_trades := 0, win_rate := 0 }

def evaluate_single_combination (out : EvalOutcome) (trial_id : ℕ) :
    OptimizationTrial :=
  { trial_id := trial_id, parameters := out.params,
    metrics := out.result.getD sentinelMetrics,
    execution_time := out.elapsed }

/-- One iteration of the sequential (`n_jobs = 1`) loop of
`GridSearchOptimizer.optimize` (grid_search.py lines 110-131): record the
trial, update the best, then decide the early-stopping break — comparing the
first maximal trial of the last `early_stopping_rounds` trials with the
global best by trial id. -/
def gridHalt (cfg : OptimizationConfig) (i : ℕ)
    (trials2 : List OptimizationTrial) (best2 : OptimizationTrial) : Bool :=
  cfg.early_stopping && decide (cfg.early_stopping_rounds ≤ i) &&
    (match pyMaxBy (get_objective_value cfg.objective)
        (lastWindow cfg.early_stopping_rounds trials2) with
     | some rb => rb.trial_id == best2.trial_id
     | none => false)

def gridStep (cfg : OptimizationConfig) (st : SearchState) (i : ℕ)
    (out : EvalOutcome) : SearchState × Bool :=
  let tr := evaluate_single_combination out i
  let trials2 := st.trials ++ [tr]
  let best2 := updateBest (get_objective_value cfg.objective) st.best_trial tr
  ({ trials := trials2, best_trial := some best2 },
    gridHalt cfg i trials2 best2)

/-- The sequential evaluation loop of `GridSearchOptimizer.optimize`, driven
by the per-trial outcomes in dispatch order. -/
def gridGo (cfg : OptimizationConfig) :
    SearchState → ℕ → List EvalOutcome → SearchState
  | st, _, [] => st
  | st, i, o :: rest =>
    let p := gridStep cfg st i o
    if p.2 then p.1 else gridGo cfg p.1 (i + 1) rest

def gridSequentialRun (cfg : OptimizationConfig) (outs : List EvalOutcome) :
    SearchState :=
  gridGo cfg initSearchState 0 outs

/-! ### Bayesian optimizer fallback (src/optimization/bayesian_optimizer.py) -/

/-- `BayesianOptimizer._objective_function` (bayesian_optimizer.py lines
54-103): on exception the objective is the -1000 penalty and the recorded
trial carries the sentinel metrics; the trial is appended with
`trial_id = len(trials)` and `execution_time = 0`; the best is updated only
when evaluation succeeded (the `'metrics' in locals()` guard); the returned
scalar is the negated objective for the external minimizer. -/
def objective_function (cfg : OptimizationConfig) (st : SearchState)
    (out : EvalOutcome) : SearchState × ℚ :=
  let objective_value : ℚ :=
    match out.result with
    | some m => get_objective_value cfg.objective m
    | none => -1000
  let tr : OptimizationTrial :=
    { trial_id := st.trials.length, parameters := out.params,
      metrics := out.result.getD sentinelMetrics, execution_time := 0 }
  let best2 : Option OptimizationTrial :=
    match out.result with
    | none => st.best_trial
    | some _ =>
      some (updateBest (get_objective_value cfg.objective) st.best_trial tr)
  ({ trials := st.trials ++ [tr], best_trial := best2 }, -objective_value)

def bayesRecordTrial (cfg : OptimizationConfig) (st : SearchState)
    (out : EvalOutcome) : SearchState :=
  (objective_function cfg st out).1

/-- One exploitation-phase iteration of
`BayesianOptimizer._simplified_bayesian_search` (lines 163-189), with its
early-stopping check gated on the phase-local index `i`.  (If `best_trial`
were still None at the check the source would raise; that unreachable corner
is mapped to "no break".) -/
def bayesHalt (cfg : OptimizationConfig) (i : ℕ)
    (trials2 : List OptimizationTrial)
    (best2 : Option OptimizationTrial) : Bool :=
  cfg.early_stopping && decide (cfg.early_stopping_rounds ≤ i) &&
    (match pyMaxBy (get_objective_value cfg.objective)
        (lastWindow cfg.early_stopping_rounds trials2), best2 with
     | some rb, some b => rb.trial_id == b.trial_id
     | _, _ => false)

def bayesStep (cfg : OptimizationConfig) (st : SearchState) (i : ℕ)
    (out : EvalOutcome) : SearchState × Bool :=
  let st2 := bayesRecordTrial cfg st out
  (st2, bayesHalt cfg i st2.trials st2.best_trial)

def bayesPhase2 (cfg : OptimizationConfig) :
    SearchState → ℕ → List EvalOutcome → SearchState
  | st, _, [] => st
  | st, i, o :: rest =>
    let p := bayesStep cfg st i o
    if p.2 then p.1 else bayesPhase2 cfg p.1 (i + 1) rest

/-- `BayesianOptimizer._simplified_bayesian_search` (lines 151-189):
`min(10, n_trials // 3)` exploration evaluations with no early-stopping
check, then the exploitation loop.  The parameter vectors drawn by the two
sampling rules only determine the outcome sequence, which is the oracle
input `outs`. -/
def simplified_bayesian_search (cfg : OptimizationConfig)
    (outs : List EvalOutcome) : SearchState :=
  let n_random := min 10 (cfg.n_trials / 3)
  let st1 := (outs.take n_random).foldl (bayesRecordTrial cfg) initSearchState
  bayesPhase2 cfg st1 0 ((outs.drop n_random).take (cfg.n_trials - n_random))

/-- The tail of `BayesianOptimizer.optimize` (lines 140-144): if a best trial
exists, its `execution_time` field is overwritten with the average time per
trial.  Python mutates through the shared reference, so the stored trial list
sees the change too; trial ids are unique in every recorded list, so the
alias is modelled by id. -/
def bayesFinalize (st : SearchState) (total_time : ℚ) : SearchState :=
  match st.best_trial with
  | none => st
  | some b =>
    let b2 : OptimizationTrial :=
      { b with execution_time := total_time / (st.trials.length : ℚ) }
    { trials := st.trials.map
        (fun t => if t.trial_id = b.trial_id then b2 else t),
      best_trial := some b2 }

/-! ### Bookkeeping invariants of the search loops -/

/-- Trial ids strictly increase along a recorded trial list. -/
def IdStrictMono (l : List OptimizationTrial) : Prop :=
  l.Pairwise (fun a b => a.trial_id < b.trial_id)

/-! ### Concrete configurations, states and inputs used by the claim checks -/

/-- The loop invariant of the sequential searches: recorded trial ids equal
their positions, and the best-trial reference is Python's
`max(trials, key=objective)`. -/
def GridInv (cfg : OptimizationConfig) (st : SearchState) : Prop :=
  (∀ k, k < st.trials.length →
    (st.trials.getD k defaultTrial).trial_id = k) ∧
  st.best_trial = pyMaxBy (get_objective_value cfg.objective) st.trials

/-- The trial record appended by `_objective_function`. -/
def bayesNewTrial (st : SearchState) (out : EvalOutcome) : OptimizationTrial :=
  { trial_id := st.trials.length, parameters := out.params,
    metrics := out.result.getD sentinelMetrics, execution_time := 0 }

def cxC4cfg : StrategyConfig :=
  { drawdown_threshold := -0.25, buy_pe_threshold := 50,
    sell_pe_threshold := 75, start_date := 0, buy_amount := 1000,
    min_shares := 0.01, min_trade_interval_days := 30, sell_ratio := 0.5,
    max_consecutive_buys := 5 }

def cxC4data : List Observation :=
  [⟨100, 100, 40, -30⟩, ⟨50, 100, 40, -30⟩]

def wC4data : List Observation :=
  [⟨10, 100, 40, -30⟩, ⟨50, 100, 40, -30⟩]

def wC5cfg : StrategyConfig :=
  { drawdown_threshold := -0.25, buy_pe_threshold := 50,
    sell_pe_threshold := 75, start_date := 0, buy_amount := 1000,
    min_shares := 0.01, min_trade_interval_days := 30, sell_ratio := 0.5,
    max_consecutive_buys := 5 }

def wC5row : Observation := ⟨0, 1000000, 40, -30⟩

def dummyNumericOps : NumericOps := ⟨fun q => q, fun a _ => a⟩

def wC10p1 : Params :=
  [("buy_pe_threshold", 50), ("min_trade_interval_days", 5),
   ("buy_amount", 1)]

def wC10p2 : Params := [("buy_pe_threshold", 50)]

def cxC1cfg : OptimizationConfig :=
  { objective := "max_drawdown", n_trials := 10, n_jobs := 1,
    random_seed := 42, early_stopping := false,
    early_stopping_rounds := 20 }

def mddMetrics (d : ℚ) : Metrics := { zeroMetrics with max_drawdown := d }

def cxC1outs : List EvalOutcome :=
  [⟨[], some (mddMetrics (-50)), 0⟩, ⟨[], none, 0⟩,
   ⟨[], some (mddMetrics (-20)), 0⟩]

def wC8cfg : StrategyConfig :=
  { drawdown_threshold := -0.25, buy_pe_threshold := 100,
    sell_pe_threshold := 10, start_date := 0, buy_amount := 1000,
    min_shares := 0.01, min_trade_interval_days := 30, sell_ratio := 0.5,
    max_consecutive_buys := 5 }

def wC8state : StrategyState :=
  { total_shares := 10, cash_outflow := 1000, cash_inflow := 0,
    last_buy_date := none, last_sell_date := none, consecutive_buys := 0,
    total_buy_times := 1, trades := [] }

def wC8row : Observation := ⟨40, 100, 50, -30⟩

def wC7ranges : List (String × ParameterRange) :=
  [("a", ⟨"a", 1, 2, none, none⟩), ("b", ⟨"b", 3, 4, none, none⟩)]

def wC7cfg : OptimizationConfig :=
  { objective := "total_return", n_trials := 10, n_jobs := 1,
    random_seed := 42, early_stopping := true,
    early_stopping_rounds := 20 }

def cxC9trialA : OptimizationTrial :=
  { trial_id := 0, parameters := [], metrics := zeroMetrics,
    execution_time := 0 }

def cxC9trialB : OptimizationTrial :=
  { trial_id := 1, parameters := [], metrics := zeroMetrics,
    execution_time := 0 }

/-- C9 (counterexample): `BayesianOptimizer.optimize` (lines 140-144)
overwrites the best trial's `execution_time` after the trial was recorded:
finalizing a two-trial state with total time 10 changes the stored best
trial's `execution_time` from 0 to 5, so recorded trials are not immutable. -/
def cxC9state : SearchState :=
  { trials := [cxC9trialA, cxC9trialB], best_trial := some cxC9trialA }

def cxC3cfg : OptimizationConfig :=
  { objective := "total_return", n_trials := 30, n_jobs := 1,
    random_seed := 42, early_stopping := true,
    early_stopping_rounds := 20 }

def metricsWithReturn (r : ℚ) : Metrics :=
  { zeroMetrics with total_return := r }

def wC3b : OptimizationTrial :=
  { trial_id := 0, parameters := [], metrics := metricsWithReturn 5,
    execution_time := 0 }

def wC3t : OptimizationTrial :=
  { trial_id := 1, parameters := [], metrics := metricsWithReturn 5,
    execution_time := 0 }

def outcomeOfReturn (r : ℚ) : EvalOutcome :=
  ⟨[], some (metricsWithReturn r), 0⟩

def cxC2cfg : OptimizationConfig :=
  { objective := "total_return", n_trials := 30, n_jobs := 1,
    random_seed := 42, early_stopping := true, early_stopping_rounds := 2 }

def cxC2outs : List EvalOutcome :=
  outcomeOfReturn 1 :: outcomeOfReturn 5 ::
    List.replicate 28 (outcomeOfReturn 1)

def wC2cfg : OptimizationConfig :=
  { objective := "total_return", n_trials := 10, n_jobs := 1,
    random_seed := 42, early_stopping := true, early_stopping_rounds := 1 }

def wC2trial0 : OptimizationTrial :=
  { trial_id := 0, parameters := [], metrics := metricsWithReturn 5,
    execution_time := 0 }

def wC2state : SearchState :=
  { trials := [wC2trial0], best_trial := some wC2trial0 }

def wC2out : EvalOutcome := ⟨[], some (metricsWithReturn 3), 0⟩

/-- Characterisation of the left fold performed by Python's
`max(..., key=obj)`: the result is a member, it attains the maximum, every
strictly older element (by trial id, for an id-sorted list) is strictly
below it, and its id is at least the initial element's. -/
lemma pyFold_spec (obj : Metrics → ℚ) (ts : List OptimizationTrial) :
    ∀ t : OptimizationTrial, IdStrictMono (t :: ts) →
      (ts.foldl (pyMaxStep obj) t ∈ t :: ts ∧
       (∀ x ∈ t :: ts,
          obj x.metrics ≤ obj (ts.foldl (pyMaxStep obj) t).metrics) ∧
       (∀ x ∈ t :: ts, x.trial_id < (ts.foldl (pyMaxStep obj) t).trial_id →
          obj x.metrics < obj (ts.foldl (pyMaxStep obj) t).metrics) ∧
       t.trial_id ≤ (ts.foldl (pyMaxStep obj) t).trial_id) := by
  induction ts with
  | nil =>
    intro t _
    simp only [List.foldl_nil]
    refine ⟨by simp, ?_, ?_, le_refl _⟩
    · intro x hx
      have hx2 : x = t := by simpa using hx
      simp [hx2]
    · intro x hx hlt
      have hx2 : x = t := by simpa using hx
      simp [hx2] at hlt
  | cons y ts ih =>
    intro t hpw
    obtain ⟨hpw1, hpw2⟩ := List.pairwise_cons.mp hpw
    have hty : t.trial_id < y.trial_id := hpw1 y (List.mem_cons_self y ts)
    by_cases hc : obj t.metrics < obj y.metrics
    · -- the scan replaces the current element by y
      have h2 : pyMaxStep obj t y = y := by simp [pyMaxStep, hc]
      obtain ⟨hmem, hmax, hfirst, hidle⟩ := ih y hpw2
      have hfold : (y :: ts).foldl (pyMaxStep obj) t =
          ts.foldl (pyMaxStep obj) y := by
        simp [List.foldl_cons, h2]
      rw [hfold]
      have hym : obj y.metrics ≤ obj (ts.foldl (pyMaxStep obj) y).metrics :=
        hmax y (List.mem_cons_self y ts)
      refine ⟨List.mem_cons_of_mem t hmem, ?_, ?_,
        le_trans (le_of_lt hty) hidle⟩
      · intro x hx
        rcases List.mem_cons.mp hx with h | h
        · subst h; exact le_of_lt (lt_of_lt_of_le hc hym)
        · exact hmax x h
      · intro x hx hlt
        rcases List.mem_cons.mp hx with h | h
        · subst h; exact lt_of_lt_of_le hc hym
        · exact hfirst x h hlt
    · -- the scan keeps the current element t
      have h2 : pyMaxStep obj t y = t := by simp [pyMaxStep, hc]
      have hcle : obj y.metrics ≤ obj t.metrics := not_lt.mp hc
      have hpw3 : IdStrictMono (t :: ts) := by
        refine List.pairwise_cons.mpr ⟨?_, (List.pairwise_cons.mp hpw2).2⟩
        intro z hz
        exact hpw1 z (List.mem_cons_of_mem y hz)
      obtain ⟨hmem, hmax, hfirst, hidle⟩ := ih t hpw3
      have hfold : (y :: ts).foldl (pyMaxStep obj) t =
          ts.foldl (pyMaxStep obj) t := by
        simp [List.foldl_cons, h2]
      rw [hfold]
      have htm : obj t.metrics ≤ obj (ts.foldl (pyMaxStep obj) t).metrics :=
        hmax t (List.mem_cons_self t ts)
      refine ⟨?_, ?_, ?_, hidle⟩
      · rcases List.mem_cons.mp hmem with h | h
        · rw [h]; exact List.mem_cons_self t _
        · exact List.mem_cons_of_mem t (List.mem_cons_of_mem y h)
      · intro x hx
        rcases List.mem_cons.mp hx with h | h
        · subst h; exact htm
        · rcases List.mem_cons.mp h with h3 | h3
          · subst h3; exact le_trans hcle htm
          · exact hmax x (List.mem_cons_of_mem t h3)
      · intro x hx hlt
        rcases List.mem_cons.mp hx with h | h
        · subst h; exact hfirst x (List.mem_cons_self x ts) hlt
        · rcases List.mem_cons.mp h with h3 | h3
          · subst h3
            have htm2 : t.trial_id <
                (ts.foldl (pyMaxStep obj) t).trial_id := lt_trans hty hlt
            exact lt_of_le_of_lt hcle
              (hfirst t (List.mem_cons_self t ts) htm2)
          · exact hfirst x (List.mem_cons_of_mem t h3) hlt

/-- `pyMaxBy` on an id-sorted non-empty list returns the first element
attaining the maximal objective. -/
lemma pyMaxBy_eq_some_spec (obj : Metrics → ℚ) {l : List OptimizationTrial}
    {m : OptimizationTrial} (hpw : IdStrictMono l)
    (h : pyMaxBy obj l = some m) :
    m ∈ l ∧ (∀ x ∈ l, obj x.metrics ≤ obj m.metrics) ∧
      (∀ x ∈ l, x.trial_id < m.trial_id → obj x.metrics < obj m.metrics) := by
  cases l with
  | nil => simp [pyMaxBy] at h
  | cons t ts =>
    obtain ⟨hmem, hmax, hfirst, _⟩ := pyFold_spec obj ts t hpw
    have h2 : ts.foldl (pyMaxStep obj) t = m := by
      simpa [pyMaxBy] using h
    rw [h2] at hmem hmax hfirst
    exact ⟨hmem, hmax, hfirst⟩

/-- Appending one trial composes `pyMaxBy` with the best-trial update rule:
Python's `max` scan and the incremental update agree. -/
lemma pyMaxBy_append_single (obj : Metrics → ℚ) (l : List OptimizationTrial)
    (t : OptimizationTrial) :
    pyMaxBy obj (l ++ [t]) = some (updateBest obj (pyMaxBy obj l) t) := by
  cases l with
  | nil => simp [pyMaxBy, updateBest]
  | cons t0 ts =>
    simp [pyMaxBy, updateBest, List.foldl_append, pyMaxStep]

/-- A list whose element at every position k carries trial id k is id-sorted. -/
lemma idStrictMono_of_positions (l : List OptimizationTrial)
    (h : ∀ k, k < l.length → (l.getD k defaultTrial).trial_id = k) :
    IdStrictMono l := by
  rw [IdStrictMono, List.pairwise_iff_get]
  intro i j hij
  have hi := h i.1 i.2
  have hj := h j.1 j.2
  rw [List.getD_eq_getElem _ _ i.2] at hi
  rw [List.getD_eq_getElem _ _ j.2] at hj
  rw [List.get_eq_getElem, List.get_eq_getElem, hi, hj]
  exact hij

/-- In an id-sorted list, any element with a larger id than some element of a
suffix also belongs to that suffix. -/
lemma mem_drop_of_id_lt {l : List OptimizationTrial} {k : ℕ}
    (hpw : IdStrictMono l) {x y : OptimizationTrial} (hx : x ∈ l.drop k)
    (hy : y ∈ l) (hlt : x.trial_id < y.trial_id) : y ∈ l.drop k := by
  by_contra hnot
  have hsplit : l.take k ++ l.drop k = l := List.take_append_drop k l
  have hy2 : y ∈ l.take k := by
    rw [← hsplit] at hy
    rcases List.mem_append.mp hy with h1 | h2
    · exact h1
    · exact absurd h2 hnot
  have hpw2 : (l.take k ++ l.drop k).Pairwise
      (fun a b => a.trial_id < b.trial_id) := by
    rw [hsplit]; exact hpw
  have hyx := (List.pairwise_append.mp hpw2).2.2 y hy2 x hx
  exact absurd hlt (lt_asymm hyx)

/-- The plateau test of the early-stopping rule: for an id-sorted trial list
with global first-maximum `b` and window first-maximum `rb`, "`rb` is not
strictly newer than `b`" already forces the ids to coincide. -/
lemma plateau_id_le_iff (obj : Metrics → ℚ) {l : List OptimizationTrial}
    {k : ℕ} {b rb : OptimizationTrial} (hpw : IdStrictMono l)
    (hb : pyMaxBy obj l = some b) (hrb : pyMaxBy obj (l.drop k) = some rb) :
    rb.trial_id ≤ b.trial_id ↔ rb.trial_id = b.trial_id := by
  constructor
  · intro hle
    rcases lt_or_eq_of_le hle with hlt | he
    · exfalso
      have hpwD : IdStrictMono (l.drop k) :=
        List.Pairwise.sublist (List.drop_sublist k l) hpw
      obtain ⟨hbmem, _, hfirst⟩ := pyMaxBy_eq_some_spec obj hpw hb
      obtain ⟨hrbmem, hrbmax, _⟩ := pyMaxBy_eq_some_spec obj hpwD hrb
      have hrbl : rb ∈ l := List.drop_subset k l hrbmem
      have h1 : obj rb.metrics < obj b.metrics := hfirst rb hrbl hlt
      have h2 : b ∈ l.drop k := mem_drop_of_id_lt hpw hrbmem hbmem hlt
      exact absurd (hrbmax b h2) (not_le.mpr h1)
    · exact he
  · intro h; exact le_of_eq h

lemma gridStep_trials (cfg : OptimizationConfig) (st : SearchState) (i : ℕ)
    (out : EvalOutcome) :
    (gridStep cfg st i out).1.trials =
      st.trials ++ [evaluate_single_combination out i] := rfl

lemma gridStep_best (cfg : OptimizationConfig) (st : SearchState) (i : ℕ)
    (out : EvalOutcome) :
    (gridStep cfg st i out).1.best_trial =
      some (updateBest (get_objective_value cfg.objective) st.best_trial
        (evaluate_single_combination out i)) := rfl

/-- Appending the next trial (whose id is the current length) preserves the
ids-equal-positions property. -/
lemma positions_append (l : List OptimizationTrial) (t : OptimizationTrial)
    (h : ∀ k, k < l.length → (l.getD k defaultTrial).trial_id = k)
    (ht : t.trial_id = l.length) :
    ∀ k, k < (l ++ [t]).length →
      ((l ++ [t]).getD k defaultTrial).trial_id = k := by
  intro k hk
  rcases lt_or_ge k l.length with hkl | hkl
  · rw [List.getD_append _ _ _ _ hkl]
    exact h k hkl
  · have hk2 : k = l.length := by
      simp only [List.length_append, List.length_singleton] at hk
      omega
    subst hk2
    rw [List.getD_append_right _ _ _ _ hkl]
    simpa using ht

/-- `gridStep` preserves the loop invariant. -/
lemma gridStep_inv (cfg : OptimizationConfig) (st : SearchState) (i : ℕ)
    (out : EvalOutcome) (hlen : st.trials.length = i)
    (hinv : GridInv cfg st) :
    GridInv cfg (gridStep cfg st i out).1 ∧
      (gridStep cfg st i out).1.trials.length = i + 1 := by
  refine ⟨⟨?_, ?_⟩, ?_⟩
  · rw [gridStep_trials]
    exact positions_append _ _ hinv.1
      (by simp [evaluate_single_combination, hlen])
  · rw [gridStep_trials, gridStep_best, pyMaxBy_append_single, hinv.2]
  · simp [gridStep_trials, hlen]

/-- The sequential grid loop maintains the invariant. -/
lemma gridGo_inv (cfg : OptimizationConfig) :
    ∀ (outs : List EvalOutcome) (st : SearchState) (i : ℕ),
      st.trials.length = i → GridInv cfg st →
      GridInv cfg (gridGo cfg st i outs) := by
  intro outs
  induction outs with
  | nil => intro st i _ hinv; simpa [gridGo] using hinv
  | cons o rest ih =>
    intro st i hlen hinv
    obtain ⟨hinv2, hlen2⟩ := gridStep_inv cfg st i o hlen hinv
    simp only [gridGo]
    by_cases hhalt : (gridStep cfg st i o).2
    · simp only [hhalt, if_true]
      exact hinv2
    · simp only [hhalt, if_false]
      exact ih _ _ hlen2 hinv2

/-- The grid loop only appends: every previously recorded trial stays in
place, unchanged. -/
lemma gridGo_trials_extend (cfg : OptimizationConfig) :
    ∀ (outs : List EvalOutcome) (st : SearchState) (i : ℕ),
      ∃ l2, (gridGo cfg st i outs).trials = st.trials ++ l2 := by
  intro outs
  induction outs with
  | nil => intro st i; exact ⟨[], by simp [gridGo]⟩
  | cons o rest ih =>
    intro st i
    simp only [gridGo]
    by_cases hhalt : (gridStep cfg st i o).2
    · rw [if_pos hhalt]
      exact ⟨[evaluate_single_combination o i], gridStep_trials cfg st i o⟩
    · rw [if_neg hhalt]
      obtain ⟨l2, hl2⟩ := ih (gridStep cfg st i o).1 (i + 1)
      refine ⟨[evaluate_single_combination o i] ++ l2, ?_⟩
      rw [hl2, gridStep_trials, List.append_assoc]

lemma bayesStep_trials (cfg : OptimizationConfig) (st : SearchState) (i : ℕ)
    (out : EvalOutcome) :
    (bayesStep cfg st i out).1.trials = st.trials ++ [bayesNewTrial st out] :=
  rfl

/-- The bayesian fallback exploitation loop also only appends. -/
lemma bayesPhase2_trials_extend (cfg : OptimizationConfig) :
    ∀ (outs : List EvalOutcome) (st : SearchState) (i : ℕ),
      ∃ l2, (bayesPhase2 cfg st i outs).trials = st.trials ++ l2 := by
  intro outs
  induction outs with
  | nil => intro st i; exact ⟨[], by simp [bayesPhase2]⟩
  | cons o rest ih =>
    intro st i
    simp only [bayesPhase2]
    by_cases hhalt : (bayesStep cfg st i o).2
    · rw [if_pos hhalt]
      exact ⟨[bayesNewTrial st o], bayesStep_trials cfg st i o⟩
    · rw [if_neg hhalt]
      obtain ⟨l2, hl2⟩ := ih (bayesStep cfg st i o).1 (i + 1)
      rw [hl2, bayesStep_trials, List.append_assoc]
      exact ⟨[bayesNewTrial st o] ++ l2, rfl⟩

/-! ### Claim C6: ParameterRange.get_values -/

/-- C6 (counterexample): the claim asserts that with `step` given,
`get_values()` is the inclusive arithmetic sequence from `min_value` to
`max_value`, every returned value lying within `[min_value, max_value]`.
The code uses `np.arange(min, max + step, step)`, which overshoots: for
min=40, max=55, step=10 it returns [40, 50, 60] although 60 > 55. -/
theorem c6_counterexample :
    ParameterRange.get_values
      { name := "p", min_value := 40, max_value := 55, step := some 10,
        values := none } = [40, 50, 60] ∧ (55 : ℚ) < 60 := by
  decide

/-- C6 (amended): `get_values()` returns the explicit `values` list verbatim
when given; else, with `step` given, it returns
`np.arange(min_value, max_value + step, step)` — the arithmetic sequence
starting at `min_value` whose elements are all below `max_value + step` (the
inclusive sequence up to `max_value` exactly when `step` divides the range,
as in the 40/60/10 scenario, but overshooting `max_value` otherwise); else it
returns exactly the two endpoints. -/
theorem c6_get_values_contract :
    (∀ (r : ParameterRange) (vs : List ℚ), r.values = some vs →
       r.get_values = vs) ∧
    (∀ r : ParameterRange, r.values = none → r.step = none →
       r.get_values = [r.min_value, r.max_value]) ∧
    (∀ (r : ParameterRange) (s : ℚ), r.values = none → r.step = some s →
       r.get_values = arange r.min_value (r.max_value + s) s) ∧
    (∀ (mn mx s x : ℚ), 0 < s → x ∈ arange mn (mx + s) s →
       mn ≤ x ∧ x < mx + s) ∧
    ParameterRange.get_values
      { name := "p", min_value := 40, max_value := 60, step := some 10,
        values := none } = [40, 50, 60] := by
  refine ⟨?_, ?_, ?_, ?_, by decide⟩
  · intro r vs h; simp [ParameterRange.get_values, h]
  · intro r h1 h2; simp [ParameterRange.get_values, h1, h2]
  · intro r s h1 h2; simp [ParameterRange.get_values, h1, h2]
  · intro mn mx s x hs hx
    unfold arange at hx
    rw [if_neg (ne_of_gt hs)] at hx
    simp only [List.mem_map, List.mem_range] at hx
    obtain ⟨k, hkn, hkx⟩ := hx
    have hks : (0 : ℚ) ≤ (k : ℚ) * s :=
      mul_nonneg (by positivity) (le_of_lt hs)
    constructor
    · rw [← hkx]; linarith
    · have hkz : (k : ℤ) < ⌈(mx + s - mn) / s⌉ := Int.lt_toNat.mp hkn
      have hkq : (k : ℚ) < (mx + s - mn) / s := by
        have := Int.lt_ceil.mp hkz
        push_cast at this ⊢
        exact this
      have := (lt_div_iff₀ hs).mp hkq
      rw [← hkx]; linarith

/-- C6 (witness): the amended bound instantiated at min=40, max=55, step=10
and the overshooting element 60. -/
theorem c6_witness :
    ((⟨"p", 40, 55, some 10, none⟩ : ParameterRange).values = none ∧
     (⟨"p", 40, 55, some 10, none⟩ : ParameterRange).step = some 10 ∧
     ParameterRange.get_values ⟨"p", 40, 55, some 10, none⟩ =
       arange 40 (55 + 10) 10) ∧
    (0 : ℚ) < 10 ∧ (60 : ℚ) ∈ arange 40 (55 + 10) 10 ∧
    (40 : ℚ) ≤ 60 ∧ (60 : ℚ) < 55 + 10 := by
  have h4 := c6_get_values_contract.2.2.2.1 40 55 10 60 (by decide) (by decide)
  have h3 := c6_get_values_contract.2.2.1 ⟨"p", 40, 55, some 10, none⟩ 10
    rfl rfl
  exact ⟨⟨rfl, rfl, h3⟩, by decide, by decide, h4.1, h4.2⟩

/-! ### Claim C4: the simulator sorts its input -/

/-- C4 (counterexample): the claim asserts the simulator does not sort and
processes observations exactly in supplied order.  The constructor's
`sort_values('日期')` call (trading_strategy.py line 64) makes the run on
out-of-order input differ from the supplied-order reading: with rows dated
100 then 50, the sorted run buys twice while the supplied-order reading buys
once (the second row fails the 30-day cooldown with a negative day gap). -/
theorem c4_counterexample :
    run_strategy cxC4cfg cxC4data ≠ run_strategy_nosort cxC4cfg cxC4data := by
  decide

/-- C4 (amended): the simulator sorts its input by date in the constructor,
so `run` processes observations in increasing date order; when the caller
supplies them already in strictly increasing date order (the documented
precondition) the processing order coincides with the supplied order. -/
theorem c4_sorted_input_order (cfg : StrategyConfig)
    (data : List Observation)
    (hsorted : data.Pairwise (fun a b => a.date < b.date)) :
    run_strategy cfg data = run_strategy_nosort cfg data := by
  have hs : List.Sorted obsDateLe data :=
    hsorted.imp (fun h => le_of_lt h)
  unfold run_strategy run_strategy_nosort
  rw [hs.insertionSort_eq]

/-- C4 (witness): a strictly date-sorted two-row table where the sorted run
and the supplied-order pass agree. -/
theorem c4_witness :
    wC4data.Pairwise (fun a b => a.date < b.date) ∧
    run_strategy cxC4cfg wC4data = run_strategy_nosort cxC4cfg wC4data :=
  ⟨by decide, c4_sorted_input_order cxC4cfg wC4data (by decide)⟩

/-! ### Claim C5: suppressed buys leave the state untouched -/

lemma execute_buy_trades (cfg : StrategyConfig) (s : StrategyState)
    (date : ℤ) (price pe drawdown : ℚ) :
    (execute_buy cfg s date price pe drawdown).1.trades = s.trades := by
  by_cases h : cfg.buy_amount / price < cfg.min_shares <;>
    simp [execute_buy, h]

lemma execute_buy_action (cfg : StrategyConfig) (s : StrategyState)
    (date : ℤ) (price pe drawdown : ℚ) :
    (execute_buy cfg s date price pe drawdown).2.action = "BUY" := by
  by_cases h : cfg.buy_amount / price < cfg.min_shares <;>
    simp [execute_buy, h]

lemma execute_sell_trades (cfg : StrategyConfig) (s : StrategyState)
    (date : ℤ) (price pe drawdown : ℚ) :
    (execute_sell cfg s date price pe drawdown).1.trades = s.trades := rfl

/-- C5: on an observation where the buy condition holds but
`buy_amount / price < min_shares`, the buy is suppressed — no record is
appended and the whole state (total_shares, cash_outflow, cash_inflow,
last_buy_date, consecutive_buys, trades, ...) is exactly what it was before
the observation. -/
theorem c5_suppressed_buy_frame (cfg : StrategyConfig) (s : StrategyState)
    (row : Observation)
    (hbuy : check_buy_condition cfg s row = true)
    (hsmall : cfg.buy_amount / row.price < cfg.min_shares) :
    stepStrategy cfg s row = s := by
  unfold stepStrategy
  rw [if_pos hbuy]
  unfold buyBranch execute_buy
  rw [if_pos hsmall]
  simp

/-- C5 (witness): at price 10⁶ a 1000-unit buy yields 0.001 < 0.01 shares;
the buy condition holds and the step leaves the initial state unchanged. -/
theorem c5_witness :
    check_buy_condition wC5cfg initStrategyState wC5row = true ∧
    wC5cfg.buy_amount / wC5row.price < wC5cfg.min_shares ∧
    stepStrategy wC5cfg initStrategyState wC5row = initStrategyState :=
  ⟨by decide, by decide,
    c5_suppressed_buy_frame wC5cfg initStrategyState wC5row (by decide)
      (by decide)⟩

/-! ### Claim C10: evaluation ignores all but the three threshold keys -/

/-- C10: `evaluate_strategy` reads only `buy_pe_threshold`,
`sell_pe_threshold` and `drawdown_threshold` from the parameter dictionary
(via `.get` with defaults 55, 75, -0.25); parameter dictionaries agreeing on
those three lookups produce identical metrics on every data table, and every
other config field is the baked-in StrategyConfig default. -/
theorem c10_other_keys_ignored (ops : NumericOps) (data : List Observation)
    (p1 p2 : Params)
    (hb : lookupParam p1 "buy_pe_threshold" 55 =
      lookupParam p2 "buy_pe_threshold" 55)
    (hs : lookupParam p1 "sell_pe_threshold" 75 =
      lookupParam p2 "sell_pe_threshold" 75)
    (hd : lookupParam p1 "drawdown_threshold" (-0.25) =
      lookupParam p2 "drawdown_threshold" (-0.25)) :
    evaluate_strategy ops data p1 = evaluate_strategy ops data p2 ∧
    configFromParams p1 = configFromParams p2 ∧
    (configFromParams p1).buy_amount = 10000 ∧
    (configFromParams p1).min_shares = 0.01 ∧
    (configFromParams p1).min_trade_interval_days = 30 ∧
    (configFromParams p1).max_consecutive_buys = 5 ∧
    (configFromParams p1).start_date = 14812 := by
  have hcfg : configFromParams p1 = configFromParams p2 := by
    unfold configFromParams
    rw [hb, hs, hd]
  refine ⟨?_, hcfg, rfl, rfl, rfl, rfl, rfl⟩
  unfold evaluate_strategy
  rw [hcfg]

/-- C10 (witness): two dictionaries differing in `min_trade_interval_days`
and `buy_amount` but agreeing on the three threshold lookups evaluate to the
same metrics. -/
theorem c10_witness :
    lookupParam wC10p1 "buy_pe_threshold" 55 =
      lookupParam wC10p2 "buy_pe_threshold" 55 ∧
    wC10p1 ≠ wC10p2 ∧
    evaluate_strategy dummyNumericOps [] wC10p1 =
      evaluate_strategy dummyNumericOps [] wC10p2 :=
  ⟨by decide, by decide,
    (c10_other_keys_ignored dummyNumericOps [] wC10p1 wC10p2 (by decide)
      (by decide) (by decide)).1⟩

/-! ### Claim C1: failed evaluations and the sentinel objective -/

/-- C1: an exception during evaluation is indeed caught per trial, a sentinel
trial is recorded and the search continues — but the sentinel's objective
value under the configured objective `max_drawdown` is
`-(-100) = +100`, the best possible value, not a large negative one: in this
three-trial grid run the failed second trial (sentinel metrics) becomes
`best_trial`, beating the successful trials with drawdowns -50% and -20%.
The sentinel dict (grid_search.py lines 60-70) and the `-1000` penalty
comment (bayesian_optimizer.py line 73) show failures were meant to be
maximally bad, so the sign interplay with
`get_objective_value` (optimizer.py line 224) is a code bug. -/
theorem c1_sentinel_objective_inverted :
    get_objective_value "max_drawdown" sentinelMetrics = 100 ∧
    (gridSequentialRun cxC1cfg cxC1outs).trials.length = 3 ∧
    ((gridSequentialRun cxC1cfg cxC1outs).trials.getD 1
      defaultTrial).metrics = sentinelMetrics ∧
    (gridSequentialRun cxC1cfg cxC1outs).best_trial.map
      (fun t => t.trial_id) = some 1 := by
  decide

/-! ### Claim C8: buy and sell are mutually exclusive per observation -/

/-- C8: the run loop body checks the sell condition only when the buy
condition fails (if/elif), so each observation appends at most one record;
when the buy condition holds the step is exactly the buy branch, and any
record it appends is a BUY — an observation satisfying both conditions
resolves to a buy and never produces a SELL record. -/
theorem c8_buy_sell_mutually_exclusive :
    (∀ (cfg : StrategyConfig) (s : StrategyState) (row : Observation),
       (stepStrategy cfg s row).trades = s.trades ∨
       ∃ r, (stepStrategy cfg s row).trades = s.trades ++ [r]) ∧
    (∀ (cfg : StrategyConfig) (s : StrategyState) (row : Observation),
       check_buy_condition cfg s row = true →
       stepStrategy cfg s row = buyBranch cfg s row) ∧
    (∀ (cfg : StrategyConfig) (s : StrategyState) (row : Observation)
       (r : TradeRecord),
       check_buy_condition cfg s row = true →
       (stepStrategy cfg s row).trades = s.trades ++ [r] →
       r.action = "BUY") := by
  have hbvar : ∀ (cfg : StrategyConfig) (s : StrategyState)
      (row : Observation),
      (buyBranch cfg s row).trades = s.trades ∨
      (buyBranch cfg s row).trades = s.trades ++
        [(execute_buy cfg s row.date row.price row.pe row.drawdown).2] := by
    intro cfg s row
    unfold buyBranch
    by_cases hp : 0 < (execute_buy cfg s row.date row.price row.pe
        row.drawdown).2.shares
    · rw [if_pos hp]
      right
      simp [execute_buy_trades]
    · rw [if_neg hp]
      left
      exact execute_buy_trades cfg s row.date row.price row.pe row.drawdown
  refine ⟨?_, ?_, ?_⟩
  · intro cfg s row
    unfold stepStrategy
    by_cases hbuy : check_buy_condition cfg s row
    · rw [if_pos hbuy]
      rcases hbvar cfg s row with h | h
      · exact Or.inl h
      · exact Or.inr ⟨_, h⟩
    · rw [if_neg hbuy]
      by_cases hsell : check_sell_condition cfg s row
      · rw [if_pos hsell]
        right
        refine ⟨(execute_sell cfg s row.date row.price row.pe
          row.drawdown).2, ?_⟩
        unfold sellBranch
        simp [execute_sell_trades]
      · rw [if_neg hsell]
        exact Or.inl rfl
  · intro cfg s row hbuy
    unfold stepStrategy
    rw [if_pos hbuy]
  · intro cfg s row r hbuy heq
    rw [show stepStrategy cfg s row = buyBranch cfg s row from by
      unfold stepStrategy; rw [if_pos hbuy]] at heq
    rcases hbvar cfg s row with h | h
    · rw [h] at heq
      exact absurd heq (by simp)
    · rw [h] at heq
      have hr : (execute_buy cfg s row.date row.price row.pe
          row.drawdown).2 = r := by
        have := List.append_inj_right heq rfl
        simpa using this
      rw [← hr]
      exact execute_buy_action cfg s row.date row.price row.pe row.drawdown

/-- C8 (witness): an observation satisfying the buy condition and the sell
condition simultaneously (PE 50 between sell threshold 10 and buy threshold
100, deep drawdown, open position) resolves to the buy branch, and the one
record the step appends is a BUY. -/
theorem c8_witness :
    check_buy_condition wC8cfg wC8state wC8row = true ∧
    check_sell_condition wC8cfg wC8state wC8row = true ∧
    stepStrategy wC8cfg wC8state wC8row = buyBranch wC8cfg wC8state wC8row ∧
    ((stepStrategy wC8cfg wC8state wC8row).trades = wC8state.trades ++
      [(execute_buy wC8cfg wC8state wC8row.date wC8row.price wC8row.pe
        wC8row.drawdown).2] →
     (execute_buy wC8cfg wC8state wC8row.date wC8row.price wC8row.pe
        wC8row.drawdown).2.action = "BUY") :=
  ⟨by decide, by decide,
    c8_buy_sell_mutually_exclusive.2.1 wC8cfg wC8state wC8row (by decide),
    fun heq => c8_buy_sell_mutually_exclusive.2.2 wC8cfg wC8state wC8row _
      (by decide) heq⟩

/-! ### Claim C7: grid selection — exhaustive or sampled -/

/-- C7: when the Cartesian product fits the trial budget the evaluated list
is the grid verbatim (the full product, each combination exactly once);
otherwise exactly `n_trials` grid positions are taken at the sampled indices
— numpy's `choice(len, n_trials, replace=False)` under the configured seed,
whose contract (that many distinct in-range indices) enters as hypotheses —
so the evaluated tuples are `n_trials` grid members, pairwise distinct
whenever the grid itself has no duplicate combination. -/
theorem c7_grid_selection (cfg : OptimizationConfig)
    (ranges : List (String × ParameterRange)) (sampleIdx : List ℕ) :
    ((create_parameter_grid ranges).length ≤ cfg.n_trials →
       selectedParams cfg ranges sampleIdx = create_parameter_grid ranges) ∧
    (cfg.n_trials < (create_parameter_grid ranges).length →
     sampleIdx.Nodup →
     (∀ i ∈ sampleIdx, i < (create_parameter_grid ranges).length) →
     sampleIdx.length = cfg.n_trials →
       (selectedParams cfg ranges sampleIdx).length = cfg.n_trials ∧
       (∀ p ∈ selectedParams cfg ranges sampleIdx,
          p ∈ create_parameter_grid ranges) ∧
       ((create_parameter_grid ranges).Nodup →
          (selectedParams cfg ranges sampleIdx).Nodup)) := by
  constructor
  · intro hle
    unfold selectedParams
    have h2 : (create_parameter_grid ranges).length ≤
        min cfg.n_trials (create_parameter_grid ranges).length :=
      le_min hle (le_refl _)
    simp only [h2, if_true]
  · intro hgt hnd hmem hlen
    have hm : min cfg.n_trials (create_parameter_grid ranges).length =
        cfg.n_trials := min_eq_left (le_of_lt hgt)
    have hnot : ¬ ((create_parameter_grid ranges).length ≤
        min cfg.n_trials (create_parameter_grid ranges).length) := by
      rw [hm]; exact not_le.mpr hgt
    have hsel : selectedParams cfg ranges sampleIdx =
        sampleIdx.map (fun i => (create_parameter_grid ranges).getD i []) := by
      unfold selectedParams
      simp only [hnot, if_false]
    rw [hsel]
    refine ⟨by simp [hlen], ?_, ?_⟩
    · intro p hp
      simp only [List.mem_map] at hp
      obtain ⟨idx, hidx, hpe⟩ := hp
      have hlt := hmem idx hidx
      rw [← hpe, List.getD_eq_getElem _ _ hlt]
      exact List.getElem_mem hlt
    · intro hnodup
      refine List.Nodup.map_on ?_ hnd
      intro a ha b hb he
      have hla := hmem a ha
      have hlb := hmem b hb
      rw [List.getD_eq_getElem _ _ hla,
        List.getD_eq_getElem _ _ hlb] at he
      exact hnodup.getElem_inj_iff.mp he

/-- C7 (witness): a 2×2 grid within a budget of 10 is evaluated exhaustively
and verbatim; with a budget of 3 < 4 the three distinct sampled positions
yield three distinct grid members. -/
theorem c7_witness :
    ((create_parameter_grid wC7ranges).length ≤ wC7cfg.n_trials ∧
     selectedParams wC7cfg wC7ranges [] = create_parameter_grid wC7ranges) ∧
    ((selectedParams { wC7cfg with n_trials := 3 } wC7ranges
        [2, 0, 3]).length = 3 ∧
     (selectedParams { wC7cfg with n_trials := 3 } wC7ranges
        [2, 0, 3]).Nodup) := by
  have h1 := (c7_grid_selection wC7cfg wC7ranges []).1 (by decide)
  have h2 := (c7_grid_selection { wC7cfg with n_trials := 3 } wC7ranges
    [2, 0, 3]).2 (by decide) (by decide) (by decide) (by decide)
  exact ⟨⟨by decide, h1⟩, h2.1, h2.2.2 (by decide)⟩

/-! ### Claim C9: trial immutability -/

theorem c9_counterexample :
    cxC9trialA.execution_time = 0 ∧
    ((bayesFinalize cxC9state 10).trials.getD 0
        defaultTrial).execution_time = 5 := by
  decide

/-- C9 (amended): no coordinator operation modifies the `trial_id`,
`parameters` or `metrics` of a recorded trial, and the search loops only
append to the trial list; the single exception is `BayesianOptimizer`'s
final step, which overwrites the best trial's `execution_time` with the
average per-trial time (touching no other field and no other trial). -/
theorem c9_trial_immutability_amended :
    (∀ (st : SearchState) (tt : ℚ) (b : OptimizationTrial),
       st.best_trial = some b →
       (∀ t ∈ st.trials, t.trial_id = b.trial_id → t = b) →
       (bayesFinalize st tt).trials.map
           (fun t => (t.trial_id, t.parameters, t.metrics)) =
         st.trials.map (fun t => (t.trial_id, t.parameters, t.metrics))) ∧
    (∀ (cfg : OptimizationConfig) (outs : List EvalOutcome)
       (st : SearchState) (i : ℕ),
       ∃ l2, (gridGo cfg st i outs).trials = st.trials ++ l2) ∧
    (∀ (cfg : OptimizationConfig) (outs : List EvalOutcome)
       (st : SearchState) (i : ℕ),
       ∃ l2, (bayesPhase2 cfg st i outs).trials = st.trials ++ l2) := by
  refine ⟨?_, fun cfg outs st i => gridGo_trials_extend cfg outs st i,
    fun cfg outs st i => bayesPhase2_trials_extend cfg outs st i⟩
  intro st tt b hb huniq
  unfold bayesFinalize
  rw [hb]
  simp only [List.map_map]
  refine List.map_congr_left ?_
  intro t ht
  by_cases hid : t.trial_id = b.trial_id
  · have hteq : t = b := huniq t ht hid
    subst hteq
    simp [hid]
  · simp [hid]

/-- C9 (witness): finalizing the two-trial state preserves every trial's id,
parameters and metrics. -/
theorem c9_witness :
    (bayesFinalize cxC9state 10).trials.map
        (fun t => (t.trial_id, t.parameters, t.metrics)) =
      [cxC9trialA, cxC9trialB].map
        (fun t => (t.trial_id, t.parameters, t.metrics)) :=
  c9_trial_immutability_amended.1 cxC9state 10 cxC9trialA rfl (by decide)

/-! ### Claim C3: best-trial tracking -/

/-- C3 (counterexample): the claim says that in every search run the first
evaluated trial becomes `best_trial`.  In the bayesian optimizer's
`_objective_function` a failed evaluation records the trial but skips the
best-trial update (the `'metrics' in locals()` guard), so after a failing
first trial one trial is recorded while `best_trial` is still None — and the
recorded trial's sentinel objective is not reflected in any best-trial. -/
theorem c3_counterexample :
    (bayesRecordTrial cxC3cfg initSearchState ⟨[], none, 0⟩).trials.length
      = 1 ∧
    (bayesRecordTrial cxC3cfg initSearchState
      ⟨[], none, 0⟩).best_trial = none := by
  decide

/-- C3 (amended): in grid search every recorded trial (sentinel ones
included) takes part in best-trial tracking: the first trial becomes best; a
later trial replaces the best exactly when its objective strictly exceeds it
(ties keep the earlier trial); the best's objective never decreases and, at
the end of any sequential grid run, `best_trial` is a recorded trial whose
objective equals the maximum over all recorded trials.  In the bayesian
optimizer the same holds restricted to successfully evaluated trials: a
failed evaluation records its sentinel trial but leaves `best_trial`
unchanged (so a failing first trial leaves it unset). -/
theorem c3_best_tracking_amended :
    (∀ (obj : Metrics → ℚ) (t : OptimizationTrial),
       updateBest obj none t = t) ∧
    (∀ (obj : Metrics → ℚ) (b t : OptimizationTrial),
       obj t.metrics ≤ obj b.metrics → updateBest obj (some b) t = b) ∧
    (∀ (obj : Metrics → ℚ) (b t : OptimizationTrial),
       obj b.metrics < obj t.metrics → updateBest obj (some b) t = t) ∧
    (∀ (obj : Metrics → ℚ) (b t : OptimizationTrial),
       obj b.metrics ≤ obj (updateBest obj (some b) t).metrics) ∧
    (∀ (cfg : OptimizationConfig) (outs : List EvalOutcome)
       (b : OptimizationTrial),
       (gridSequentialRun cfg outs).best_trial = some b →
       b ∈ (gridSequentialRun cfg outs).trials ∧
       ∀ t ∈ (gridSequentialRun cfg outs).trials,
         get_objective_value cfg.objective t.metrics ≤
           get_objective_value cfg.objective b.metrics) ∧
    (∀ (cfg : OptimizationConfig) (st : SearchState) (out : EvalOutcome),
       out.result = none →
       (bayesRecordTrial cfg st out).best_trial = st.best_trial) := by
  refine ⟨?_, ?_, ?_, ?_, ?_, ?_⟩
  · intro obj t; rfl
  · intro obj b t h
    simp [updateBest, not_lt.mpr h]
  · intro obj b t h
    simp [updateBest, h]
  · intro obj b t
    by_cases h : obj b.metrics < obj t.metrics
    · simp only [updateBest]
      rw [if_pos h]
      exact le_of_lt h
    · simp only [updateBest]
      rw [if_neg h]
  · intro cfg outs b hb
    have hinv : GridInv cfg (gridSequentialRun cfg outs) :=
      gridGo_inv cfg outs initSearchState 0 rfl
        ⟨fun k hk => absurd hk (Nat.not_lt_zero k), rfl⟩
    have hpw := idStrictMono_of_positions _ hinv.1
    have hbest : pyMaxBy (get_objective_value cfg.objective)
        (gridSequentialRun cfg outs).trials = some b := by
      rw [← hinv.2]; exact hb
    obtain ⟨hmem, hmax, _⟩ :=
      pyMaxBy_eq_some_spec (get_objective_value cfg.objective) hpw hbest
    exact ⟨hmem, hmax⟩
  · intro cfg st out hres
    unfold bayesRecordTrial objective_function
    rw [hres]

/-- C3 (witness): spec scenario 4 — a later trial with objective exactly
equal to the best's (5.0) does not replace it: ties keep the earlier
trial. -/
theorem c3_witness :
    get_objective_value "total_return" wC3t.metrics ≤
      get_objective_value "total_return" wC3b.metrics ∧
    updateBest (get_objective_value "total_return") (some wC3b) wC3t
      = wC3b :=
  ⟨by decide, c3_best_tracking_amended.2.1
    (get_objective_value "total_return") wC3b wC3t (by decide)⟩

/-! ### Claim C2: the early-stopping plateau rule -/

lemma gridHalt_iff (cfg : OptimizationConfig) (i : ℕ)
    (trials2 : List OptimizationTrial) (best2 : OptimizationTrial) :
    gridHalt cfg i trials2 best2 = true ↔
      (cfg.early_stopping = true ∧ cfg.early_stopping_rounds ≤ i ∧
       ∃ rb, pyMaxBy (get_objective_value cfg.objective)
           (lastWindow cfg.early_stopping_rounds trials2) = some rb ∧
         rb.trial_id = best2.trial_id) := by
  unfold gridHalt
  cases hpm : pyMaxBy (get_objective_value cfg.objective)
      (lastWindow cfg.early_stopping_rounds trials2) with
  | none => simp [hpm]
  | some rb => simp [hpm, and_assoc]

lemma bayesHalt_iff (cfg : OptimizationConfig) (i : ℕ)
    (trials2 : List OptimizationTrial)
    (best2 : Option OptimizationTrial) :
    bayesHalt cfg i trials2 best2 = true ↔
      (cfg.early_stopping = true ∧ cfg.early_stopping_rounds ≤ i ∧
       ∃ rb b, pyMaxBy (get_objective_value cfg.objective)
           (lastWindow cfg.early_stopping_rounds trials2) = some rb ∧
         best2 = some b ∧ rb.trial_id = b.trial_id) := by
  unfold bayesHalt
  cases hpm : pyMaxBy (get_objective_value cfg.objective)
      (lastWindow cfg.early_stopping_rounds trials2) with
  | none => simp [hpm]
  | some rb =>
    cases best2 with
    | none => simp [hpm]
    | some b => simp [hpm, and_assoc]

/-- C2 (amended): in the sequential grid loop with early stopping on and a
positive patience window N, after recording a new trial the loop breaks
exactly when the trial count exceeds N and the first trial attaining the
maximal objective among the last N recorded trials is not strictly newer (by
trial id) than the updated global best — for the reachable states
(contiguous trial ids, best = running first-maximum) "not strictly newer"
already forces it to BE the global best.  The bayesian fallback applies the
same window test, but gated on its exploitation-phase index (so the claim's
"once the trial count exceeds N" reading fails there, see the
counterexample) and comparing window winner and global best for identity. -/
theorem c2_early_stopping_plateau (cfg : OptimizationConfig)
    (st : SearchState) (i : ℕ) (out : EvalOutcome)
    (hes : cfg.early_stopping = true)
    (hN : 0 < cfg.early_stopping_rounds)
    (hlen : st.trials.length = i) (hinv : GridInv cfg st) :
    ((gridStep cfg st i out).2 = true ↔
      (cfg.early_stopping_rounds ≤ i ∧
        ∃ rb b,
          pyMaxBy (get_objective_value cfg.objective)
            (lastWindow cfg.early_stopping_rounds
              (gridStep cfg st i out).1.trials) = some rb ∧
          (gridStep cfg st i out).1.best_trial = some b ∧
          rb.trial_id ≤ b.trial_id)) ∧
    (∀ (st2 : SearchState) (j : ℕ) (out2 : EvalOutcome),
      (bayesStep cfg st2 j out2).2 = true ↔
        (cfg.early_stopping_rounds ≤ j ∧
          ∃ rb b,
            pyMaxBy (get_objective_value cfg.objective)
              (lastWindow cfg.early_stopping_rounds
                (bayesStep cfg st2 j out2).1.trials) = some rb ∧
            (bayesStep cfg st2 j out2).1.best_trial = some b ∧
            rb.trial_id = b.trial_id)) := by
  constructor
  · -- the sequential grid loop
    have hgs2 : (gridStep cfg st i out).2 =
        gridHalt cfg i (gridStep cfg st i out).1.trials
          (updateBest (get_objective_value cfg.objective) st.best_trial
            (evaluate_single_combination out i)) := rfl
    have hb2 := gridStep_best cfg st i out
    obtain ⟨⟨hpos2, hbest2⟩, hlen2⟩ := gridStep_inv cfg st i out hlen hinv
    have hpw2 : IdStrictMono (gridStep cfg st i out).1.trials :=
      idStrictMono_of_positions _ hpos2
    have hpm : pyMaxBy (get_objective_value cfg.objective)
        (gridStep cfg st i out).1.trials =
        some (updateBest (get_objective_value cfg.objective) st.best_trial
          (evaluate_single_combination out i)) := hbest2.symm.trans hb2
    have hwin : lastWindow cfg.early_stopping_rounds
        (gridStep cfg st i out).1.trials =
        (gridStep cfg st i out).1.trials.drop
          ((gridStep cfg st i out).1.trials.length -
            cfg.early_stopping_rounds) := by
      unfold lastWindow
      rw [if_neg (Nat.pos_iff_ne_zero.mp hN)]
    rw [hgs2, gridHalt_iff]
    constructor
    · rintro ⟨-, hNi, rb, hrb, hid⟩
      exact ⟨hNi, rb, _, hrb, hb2, le_of_eq hid⟩
    · rintro ⟨hNi, rb, b, hrb, hbeq, hle⟩
      have hbe : b = updateBest (get_objective_value cfg.objective)
          st.best_trial (evaluate_single_combination out i) :=
        (Option.some_inj.mp (hb2.symm.trans hbeq)).symm
      subst hbe
      have hrb2 := hrb
      rw [hwin] at hrb2
      exact ⟨hes, hNi, rb, hrb,
        (plateau_id_le_iff (get_objective_value cfg.objective) hpw2 hpm
          hrb2).mp hle⟩
  · -- the bayesian fallback exploitation check
    intro st2 j out2
    have hbs2 : (bayesStep cfg st2 j out2).2 =
        bayesHalt cfg j (bayesStep cfg st2 j out2).1.trials
          (bayesStep cfg st2 j out2).1.best_trial := rfl
    rw [hbs2, bayesHalt_iff]
    constructor
    · rintro ⟨-, hNj, rb, b, hrb, hb, hid⟩
      exact ⟨hNj, rb, b, hrb, hb, hid⟩
    · rintro ⟨hNj, rb, b, hrb, hb, hid⟩
      exact ⟨hes, hNj, rb, b, hrb, hb, hid⟩

set_option maxRecDepth 4000 in
/-- C2 (counterexample): in the fallback guided search with patience N = 2
and 30 trials (exploration batch min(10, 30//3) = 10), after the third trial
the count (3) exceeds N and the claim's plateau condition holds: the first
maximal trial of the last 2 (trial 1, objective 5) has the same id as the
global best, so it is not strictly newer.  The claim then demands a halt,
but `_simplified_bayesian_search` checks the plateau only from exploitation
iteration N on (trial count N + 11), where the best (trial 1) has left the
window forever — the run performs all 30 trials instead of stopping at 3. -/
theorem c2_counterexample :
    ((cxC2outs.take 3).foldl (bayesRecordTrial cxC2cfg)
        initSearchState).trials.length = 3 ∧
    cxC2cfg.early_stopping = true ∧
    cxC2cfg.early_stopping_rounds < 3 ∧
    (pyMaxBy (get_objective_value cxC2cfg.objective)
        (lastWindow cxC2cfg.early_stopping_rounds
          ((cxC2outs.take 3).foldl (bayesRecordTrial cxC2cfg)
            initSearchState).trials)).map (fun t => t.trial_id) = some 1 ∧
    ((cxC2outs.take 3).foldl (bayesRecordTrial cxC2cfg)
        initSearchState).best_trial.map (fun t => t.trial_id) = some 1 ∧
    (simplified_bayesian_search cxC2cfg cxC2outs).trials.length = 30 := by
  decide

/-- C2 (witness): the amended halting rule instantiated at a reachable
one-trial grid state with patience 1. -/
theorem c2_witness :
    wC2cfg.early_stopping = true ∧ 0 < wC2cfg.early_stopping_rounds ∧
    wC2state.trials.length = 1 ∧ GridInv wC2cfg wC2state ∧
    ((gridStep wC2cfg wC2state 1 wC2out).2 = true ↔
      (wC2cfg.early_stopping_rounds ≤ 1 ∧
        ∃ rb b,
          pyMaxBy (get_objective_value wC2cfg.objective)
            (lastWindow wC2cfg.early_stopping_rounds
              (gridStep wC2cfg wC2state 1 wC2out).1.trials) = some rb ∧
          (gridStep wC2cfg wC2state 1 wC2out).1.best_trial = some b ∧
          rb.trial_id ≤ b.trial_id)) :=
  ⟨rfl, by decide, rfl, ⟨by decide, by decide⟩,
    (c2_early_stopping_plateau wC2cfg wC2state 1 wC2out rfl (by decide) rfl
      ⟨by decide, by decide⟩).1⟩

end Hengrui
